import Mathlib

/-!
Shallow embedding of graphtools (src/graphtools/base.py): the Data layer
(dimensionality reduction, transform and inverse_transform), the BaseGraph
layer (kernel symmetrization policies, lazy kernel and diffusion-operator
caches, parameter validation and setters) and the DataGraph extension layer
(extend_to_data and interpolate).

Matrices carry rational entries. Where the code branches on the dense or
sparse representation (scipy issparse checks, methods only sparse matrices
have) a Boolean flag is tracked. Python exceptions are modelled with
Except and structured error payloads; calls to warnings.warn are modelled
as explicit warning lists. Abstract hooks of the source (build_kernel,
build_kernel_to_data, the sklearn reduction fit) are taken as parameters.
-/

namespace Graphtools

/-- Names of parameters rejected by the set_params guards. -/
inductive ParamName where
  | n_pca
  | gamma
  | kernel_symm
deriving DecidableEq

/-- Structured contents of the error messages raised in base.py. The
constructor empty stands for a bare raise ValueError carrying no message
at all. The constructor skShape stands for the shape errors raised inside
sklearn and numpy before the code catches and replaces them. -/
inductive PyErrMsg where
  | empty
  | expected2Dgot (ndim : Nat) (shape : List Nat)
  | expected2DY (shape : List Nat)
  | skShape
  | cannotTransform (yShape dataShape : List Nat)
  | cannotInverseTransform (yShape dataNuShape : List Nat)
  | kernelSymmNotRecognized (got : Option String) (choices : List String)
  | gammaNotRecognized (g : ℚ)
  | unexpectedKernelSymm (g : Option ℚ)
  | cannotUpdate (p : ParamName)
  | yMustBeShapeEither (ambient reduced : Nat)
  | yMustBeShape (ambient : Nat)
  | eitherTransitionsOrY
deriving DecidableEq

/-- Python exceptions raised by the embedded code. -/
inductive PyErr where
  | valueError (msg : PyErrMsg)
  | attributeError
  | typeError
deriving DecidableEq

/-- Non-fatal warnings emitted through warnings.warn. -/
inductive WarnMsg where
  | pcaNotPossible (n_pca dims : Nat)
  | kernelSymmCoerced (given : Option String)
  | gammaDefaulted
  | notSymmetric
  | zeroDiagonal
deriving DecidableEq

/-- A numpy array with one or two axes and rational entries. Out-of-range
reads never happen on the paths the code exercises after its shape checks,
so entries are total functions on Nat indices. -/
inductive Arr : Type where
  | one (n : Nat) (v : Nat → ℚ)
  | two (r c : Nat) (v : Nat → Nat → ℚ)

/-- The Python shape tuple. -/
def Arr.shape : Arr → List Nat
  | .one n _ => [n]
  | .two r c _ => [r, c]

/-- Number of axes, len of the shape tuple. -/
def Arr.ndim : Arr → Nat
  | .one _ _ => 1
  | .two _ _ _ => 2

/-- shape[1] of a two-axis array. On a one-axis array the Python code
raises IndexError before ever reading shape[1]; the junk value 0 here is
only returned where the embedding has already branched on the axis count. -/
def Arr.dim1 : Arr → Nat
  | .one _ _ => 0
  | .two _ c _ => c

/-- Fitted reduction operator (sklearn PCA or TruncatedSVD): the
components matrix has shape (k, d); the mean vector is present for PCA on
dense data and absent for TruncatedSVD on sparse data. -/
structure PCAFit where
  k : Nat
  d : Nat
  components : Nat → Nat → ℚ
  mean : Option (Nat → ℚ)

/-- The sklearn transform of a fitted operator: validates a two-axis
input with d columns, then computes the matrix product of the centered
input with the transposed components (centering by zero when no mean is
stored). A wrong shape raises ValueError inside sklearn. -/
def pca_transform (pca : PCAFit) (Y : Arr) : Except PyErr Arr :=
  match Y with
  | .one _ _ => .error (.valueError .skShape)
  | .two r c v =>
      if c = pca.d then
        .ok (.two r pca.k (fun i j =>
          ∑ l ∈ Finset.range pca.d,
            (v i l - (match pca.mean with | some m => m l | none => 0)) *
              pca.components j l))
      else .error (.valueError .skShape)

/-- The sklearn inverse_transform of a fitted operator: the matrix
product of the input with the components, plus the mean when one is
stored. numpy dot also accepts a one-axis vector of length k. -/
def pca_inverse_transform (pca : PCAFit) (Y : Arr) : Except PyErr Arr :=
  match Y with
  | .one n w =>
      if n = pca.k then
        .ok (.one pca.d (fun j =>
          (∑ l ∈ Finset.range pca.k, w l * pca.components l j) +
          (match pca.mean with | some m => m j | none => 0)))
      else .error (.valueError .skShape)
  | .two r c v =>
      if c = pca.k then
        .ok (.two r pca.d (fun i j =>
          (∑ l ∈ Finset.range pca.k, v i l * pca.components l j) +
          (match pca.mean with | some m => m j | none => 0)))
      else .error (.valueError .skShape)

/-- State of a constructed Data object: the stored data, n_pca after the
possible fallback, the fitted reduction operator when reduction is active
(the data_pca attribute exists only in that case) and the reduced data. -/
structure Data where
  data : Arr
  n_pca : Option Nat
  data_pca : Option PCAFit
  data_nu : Arr

/-- Data.transform from base.py. With a fitted operator, a ValueError
coming out of the sklearn transform is caught by the outer except clause
and replaced with the informative message carrying both shapes. Without
one, the AttributeError branch runs; the bare raise ValueError statements
of that branch execute inside an except handler of the same try
statement, so the sibling except ValueError clause does NOT catch them
and they propagate to the caller with an empty message. -/
def Data.transform (D : Data) (Y : Arr) : Except PyErr Arr :=
  match D.data_pca with
  | some pca =>
      match pca_transform pca Y with
      | .ok Z => .ok Z
      | .error _ => .error (.valueError (.cannotTransform Y.shape D.data.shape))
  | none =>
      match Y with
      | .one _ _ => .error (.valueError .empty)
      | .two r c v =>
          if c = D.data.dim1 then .ok (.two r c v)
          else .error (.valueError .empty)

/-- Data.inverse_transform from base.py. Unlike in transform, the bare
raise ValueError statements here sit inside the outer try block itself,
so the outer except ValueError clause catches every one of them and
attaches the informative message carrying both shapes. -/
def Data.inverse_transform (D : Data) (Y : Arr) (columns : Option (List Nat)) :
    Except PyErr Arr :=
  match D.data_pca with
  | none =>
      match Y with
      | .one _ _ =>
          .error (.valueError (.cannotInverseTransform Y.shape D.data_nu.shape))
      | .two r c v =>
          if c = D.data_nu.dim1 then
            match columns with
            | none => .ok (.two r c v)
            | some cols => .ok (.two r cols.length (fun i j => v i (cols.getD j 0)))
          else .error (.valueError (.cannotInverseTransform Y.shape D.data_nu.shape))
  | some pca =>
      match columns with
      | none =>
          match pca_inverse_transform pca Y with
          | .ok Z => .ok Z
          | .error _ =>
              .error (.valueError (.cannotInverseTransform Y.shape D.data_nu.shape))
      | some cols =>
          match Y with
          | .one n w =>
              if n = pca.k then
                .ok (.one cols.length (fun j =>
                  (∑ l ∈ Finset.range pca.k, w l * pca.components l (cols.getD j 0)) +
                  (match pca.mean with | some m => m (cols.getD j 0) | none => 0)))
              else .error (.valueError (.cannotInverseTransform Y.shape D.data_nu.shape))
          | .two r c v =>
              if c = pca.k then
                .ok (.two r cols.length (fun i j =>
                  (∑ l ∈ Finset.range pca.k, v i l * pca.components l (cols.getD j 0)) +
                  (match pca.mean with | some m => m (cols.getD j 0) | none => 0)))
              else .error (.valueError (.cannotInverseTransform Y.shape D.data_nu.shape))

/-- Column restriction as the spec words it: exactly those columns of the
full matrix, in the order requested. -/
def restrict_columns (cols : List Nat) : Arr → Arr
  | .one _ w => .one cols.length (fun j => w (cols.getD j 0))
  | .two r _ v => .two r cols.length (fun i j => v i (cols.getD j 0))

/-- Result of constructing a Data object: the state and the warnings
emitted during construction. -/
structure DataInitResult where
  state : Data
  warns : List WarnMsg

/-- Data construction: the body of Data.__init__ together with
_check_data and _reduce_data from base.py. The reduction fit itself
(randomized PCA on dense data, randomized truncated SVD on sparse data)
is an external sklearn computation and is passed in as the fit argument.
Sparse layout normalization (tocsr) does not change entries and is not
tracked by the embedding. -/
def Data.init (data : Arr) (n_pca : Option Nat) (fit : Arr → Nat → PCAFit) :
    Except PyErr DataInitResult :=
  match data with
  | .one n v =>
      .error (.valueError (.expected2Dgot (Arr.one n v).ndim (Arr.one n v).shape))
  | .two r c v =>
      let step : Option Nat × List WarnMsg :=
        match n_pca with
        | some p => if c ≤ p then (none, [.pcaNotPossible p c]) else (some p, [])
        | none => (none, [])
      match step with
      | (n_pca2, ws) =>
          match n_pca2 with
          | some p =>
              if p < c then
                let pca := fit (.two r c v) p
                match pca_transform pca (.two r c v) with
                | .ok dnu => .ok ⟨⟨.two r c v, some p, some pca, dnu⟩, ws⟩
                | .error e => .error e
              else .ok ⟨⟨.two r c v, some p, none, .two r c v⟩, ws⟩
          | none => .ok ⟨⟨.two r c v, none, none, .two r c v⟩, ws⟩

/-- Square kernel matrix with a dense or sparse tag: the code branches on
scipy issparse and on methods only sparse matrices have. -/
structure KMat (n : Nat) where
  sparse : Bool
  entry : Fin n → Fin n → ℚ

/-- Transpose of a kernel matrix. -/
def KMat.T {n : Nat} (K : KMat n) : KMat n := ⟨K.sparse, fun i j => K.entry j i⟩

/-- Modelled from the spec: elementwise_minimum from graphtools.utils,
whose file is not under src. Per the spec it is the elementwise minimum,
dense or sparse. -/
def elementwise_minimum {n : Nat} (A B : KMat n) : KMat n :=
  ⟨A.sparse, fun i j => min (A.entry i j) (B.entry i j)⟩

/-- Modelled from the spec: elementwise_maximum from graphtools.utils,
whose file is not under src. Per the spec it is the elementwise maximum,
dense or sparse. -/
def elementwise_maximum {n : Nat} (A B : KMat n) : KMat n :=
  ⟨A.sparse, fun i j => max (A.entry i j) (B.entry i j)⟩

/-- State of a BaseGraph: the symmetrization settings and the two lazy
caches, the _kernel and _diff_op attributes, absent until first access. -/
structure GraphState (n : Nat) where
  kernel_symm : Option String
  gamma : Option ℚ
  _kernel : Option (KMat n)
  _diff_op : Option (KMat n)

/-- BaseGraph.symmetrize_kernel. The multiplicative branch calls the
multiply method of the kernel, which only scipy sparse matrices have: on
a dense numpy array the attribute lookup raises AttributeError. The gamma
branch multiplies by self.gamma, a TypeError when gamma is null. The
final branch, unreachable after _check_symmetrization, formats self.gamma
into its message, exactly as the source does. -/
def symmetrize_kernel {n : Nat} (g : GraphState n) (K : KMat n) :
    Except PyErr (KMat n) :=
  if g.kernel_symm = some "+" then
    .ok ⟨K.sparse, fun i j => (K.entry i j + K.entry j i) / 2⟩
  else if g.kernel_symm = some "*" then
    (if K.sparse then
      .ok ⟨K.sparse, fun i j => K.entry i j * (KMat.T K).entry i j⟩
    else .error .attributeError)
  else if g.kernel_symm = some "gamma" then
    match g.gamma with
    | some γ =>
        .ok ⟨K.sparse, fun i j =>
          γ * (elementwise_minimum K (KMat.T K)).entry i j +
          (1 - γ) * (elementwise_maximum K (KMat.T K)).entry i j⟩
    | none => .error .typeError
  else if g.kernel_symm = none then
    .ok K
  else
    .error (.valueError (.unexpectedKernelSymm g.gamma))

/-- Condition of the symmetry warning in _build_kernel: the maximum entry
of kernel minus its transpose exceeds the 1e-5 tolerance, that is, some
entry of the difference exceeds it. -/
def asym_above_tol {n : Nat} (K : KMat n) : Bool :=
  decide (∃ i j, K.entry i j - K.entry j i > (1 : ℚ) / 100000)

/-- Condition of the zero-diagonal warning in _build_kernel. The source
tests np.any applied to the comparison of kernel.diagonal with 0, but the
diagonal method is never called: a bound method object compared with an
integer is False for every kernel, dense or sparse, so the condition is
identically false. -/
def any_diagonal_method_eq_zero {n : Nat} (_K : KMat n) : Bool :=
  false

/-- The check the spec describes for the zero-diagonal warning: some
diagonal entry of the symmetrized kernel is exactly zero. -/
def spec_zero_diagonal {n : Nat} (K : KMat n) : Bool :=
  decide (∃ i, K.entry i i = 0)

/-- BaseGraph._build_kernel: run the abstract build_kernel hook (here the
already-computed raw kernel passed as hook), symmetrize, then emit the
two integrity warnings. Returns the kernel with the warnings emitted. -/
def _build_kernel {n : Nat} (g : GraphState n) (hook : KMat n) :
    Except PyErr (KMat n × List WarnMsg) :=
  match symmetrize_kernel g hook with
  | .error e => .error e
  | .ok kernel =>
      .ok (kernel,
        (if asym_above_tol kernel then [.notSymmetric] else []) ++
        (if any_diagonal_method_eq_zero kernel then [.zeroDiagonal] else []))

/-- The kernel accessor K: return the cache when populated, otherwise run
_build_kernel, store the result and return it, together with the state
after the access and the warnings emitted during it. -/
def K_access {n : Nat} (g : GraphState n) (hook : KMat n) :
    Except PyErr (KMat n × GraphState n × List WarnMsg) :=
  match g._kernel with
  | some k => .ok (k, g, [])
  | none =>
      match _build_kernel g hook with
      | .ok (k, ws) => .ok (k, { g with _kernel := some k }, ws)
      | .error e => .error e

/-- sklearn normalize with norm l1 along axis 1 on a square kernel: each
row is divided by the sum of the absolute values of its entries; rows
whose norm is zero are left untouched. -/
def normalize_l1 {n : Nat} (K : KMat n) : KMat n :=
  ⟨K.sparse, fun i j =>
    if (∑ j2, |K.entry i j2|) = 0 then K.entry i j
    else K.entry i j / (∑ j2, |K.entry i j2|)⟩

/-- The diffusion operator accessor P: return the cache when populated,
otherwise l1-normalize the kernel (itself fetched through its own cache)
and store the result. -/
def P_access {n : Nat} (g : GraphState n) (hook : KMat n) :
    Except PyErr (KMat n × GraphState n) :=
  match g._diff_op with
  | some p => .ok (p, g)
  | none =>
      match K_access g hook with
      | .ok (k, g2, _) => .ok (normalize_l1 k, { g2 with _diff_op := some (normalize_l1 k) })
      | .error e => .error e

/-- BaseGraph._check_symmetrization: validates kernel_symm, coerces it to
gamma when gamma was supplied anyway, defaults gamma to one half when the
gamma policy was chosen without a value, and range-checks gamma. Returns
the possibly coerced kernel_symm and gamma with the warnings emitted. -/
def _check_symmetrization (kernel_symm : Option String) (gamma : Option ℚ) :
    Except PyErr (Option String × Option ℚ × List WarnMsg) :=
  if kernel_symm ∈ ([some "+", some "*", some "gamma", none] : List (Option String)) then
    let coerce : Bool := kernel_symm ≠ some "gamma" ∧ gamma ≠ none
    let ks := if coerce then some "gamma" else kernel_symm
    let w1 : List WarnMsg := if coerce then [.kernelSymmCoerced kernel_symm] else []
    if ks = some "gamma" then
      match gamma with
      | none => .ok (ks, some ((1 : ℚ) / 2), w1 ++ [.gammaDefaulted])
      | some γ =>
          if γ < 0 ∨ γ > 1 then .error (.valueError (.gammaNotRecognized γ))
          else .ok (ks, some γ, w1)
    else .ok (ks, gamma, w1)
  else
    .error (.valueError
      (.kernelSymmNotRecognized kernel_symm ["+", "*", "gamma", "none"]))

/-- BaseGraph construction: store the parameters, run
_check_symmetrization, then, when the eager flag of the source is set,
force the kernel accessor. -/
def BaseGraph.init {n : Nat} (kernel_symm : Option String) (gamma : Option ℚ)
    (eager : Bool) (hook : KMat n) :
    Except PyErr (GraphState n × List WarnMsg) :=
  match _check_symmetrization kernel_symm gamma with
  | .error e => .error e
  | .ok (ks, γ2, ws) =>
      let g : GraphState n := ⟨ks, γ2, none, none⟩
      if eager then
        match K_access g hook with
        | .ok (_, g2, ws2) => .ok (g2, ws ++ ws2)
        | .error e => .error e
      else .ok (g, ws)

/-- The four parameters a DataGraph exposes through get_params and guards
in set_params. -/
structure DGParams where
  n_pca : Option Nat
  random_state : Option Int
  kernel_symm : Option String
  gamma : Option ℚ
deriving DecidableEq

/-- A params dict passed to set_params: for each recognized key, whether
it is present, and with which value. -/
structure ParamUpdate where
  n_pca : Option (Option Nat)
  random_state : Option (Option Int)
  kernel_symm : Option (Option String)
  gamma : Option (Option ℚ)

/-- Whether a key is present in the params dict with a value different
from the current one. -/
def param_changed {α : Type} [DecidableEq α] (upd : Option α) (cur : α) : Bool :=
  match upd with
  | some v => if v = cur then false else true
  | none => false

/-- set_params along the method resolution order of DataGraph:
Data.set_params first guards n_pca, then updates random_state in place,
then chains to BaseGraph.set_params, which guards gamma and then
kernel_symm. The second component is the state of the instance at the
moment the call returns or raises. -/
def DataGraph.set_params (s : DGParams) (p : ParamUpdate) :
    Except PyErr Unit × DGParams :=
  if param_changed p.n_pca s.n_pca then
    (.error (.valueError (.cannotUpdate .n_pca)), s)
  else
    let s1 :=
      match p.random_state with
      | some v => { s with random_state := v }
      | none => s
    if param_changed p.gamma s1.gamma then
      (.error (.valueError (.cannotUpdate .gamma)), s1)
    else if param_changed p.kernel_symm s1.kernel_symm then
      (.error (.valueError (.cannotUpdate .kernel_symm)), s1)
    else
      (.ok (), s1)

/-- sklearn normalize with norm l1 along axis 1 on a rectangular array:
rows are divided by the sum of the absolute values of their entries, rows
of zero norm are left untouched. A one-axis input is rejected by the
sklearn input validation. -/
def normalize_l1_arr (A : Arr) : Except PyErr Arr :=
  match A with
  | .one _ _ => .error (.valueError .skShape)
  | .two r c v =>
      .ok (.two r c (fun i j =>
        if (∑ l ∈ Finset.range c, |v i l|) = 0 then v i j
        else v i j / (∑ l ∈ Finset.range c, |v i l|)))

/-- DataGraph._check_extension_shape: require a two-axis input; pass it
through when its width already matches the reduced dimension; transform
it when it matches the ambient dimension; otherwise describe the one or
two acceptable widths. -/
def _check_extension_shape (D : Data) (Y : Arr) : Except PyErr Arr :=
  match Y with
  | .one n _ => .error (.valueError (.expected2DY [n]))
  | .two r c v =>
      if c = D.data_nu.dim1 then .ok (.two r c v)
      else if c = D.data.dim1 then Data.transform D (.two r c v)
      else if D.data.dim1 ≠ D.data_nu.dim1 then
        .error (.valueError (.yMustBeShapeEither D.data.dim1 D.data_nu.dim1))
      else .error (.valueError (.yMustBeShape D.data.dim1))

/-- numpy dot for the shapes reached through interpolate: matrix with
matrix or matrix with vector, inner dimensions checked. The transitions
argument is always a two-axis matrix there, so the remaining numpy dot
cases are not needed. -/
def arrDot (A B : Arr) : Except PyErr Arr :=
  match A, B with
  | .two r k v, .two k2 m w =>
      if k = k2 then .ok (.two r m (fun i j => ∑ l ∈ Finset.range k, v i l * w l j))
      else .error (.valueError .skShape)
  | .two r k v, .one k2 w =>
      if k = k2 then .ok (.one r (fun i => ∑ l ∈ Finset.range k, v i l * w l))
      else .error (.valueError .skShape)
  | .one _ _, _ => .error (.valueError .skShape)

/-- DataGraph.extend_to_data: shape-check or transform Y, call the
abstract build_kernel_to_data hook, then l1-normalize its rows into the
transition matrix. -/
def extend_to_data (D : Data) (hook : Arr → Arr) (Y : Arr) : Except PyErr Arr :=
  match _check_extension_shape D Y with
  | .ok Y2 => normalize_l1_arr (hook Y2)
  | .error e => .error e

/-- DataGraph.interpolate: with no transitions and no Y, raise; with only
Y, compute the transitions through extend_to_data; then return the dot
product of the transitions with the transform. -/
def interpolate (D : Data) (hook : Arr → Arr) (tr : Arr)
    (transitions : Option Arr) (Y : Option Arr) : Except PyErr Arr :=
  match transitions with
  | none =>
      match Y with
      | none => .error (.valueError .eitherTransitionsOrY)
      | some y =>
          match extend_to_data D hook y with
          | .ok t => arrDot t tr
          | .error e => .error e
  | some t => arrDot t tr

/-! Concrete instances used by the closed evaluations and witnesses. -/

/-- Dense asymmetric 2 by 2 raw kernel with unit diagonal. -/
def K_asym : KMat 2 :=
  ⟨false, fun i j => if i = j then 1 else if i.val = 0 then 3 else 1⟩

/-- Graph state configured for gamma symmetrization with gamma one half,
caches empty. -/
def g_gammaW : GraphState 2 := ⟨some "gamma", some ((1 : ℚ) / 2), none, none⟩

/-- Dense kernel whose first row is ones and second row zeros. -/
def KW2 : KMat 2 := ⟨false, fun i _ => if i.val = 0 then 1 else 0⟩

/-- Graph state whose kernel cache already holds KW2 and whose diffusion
cache is empty. -/
def gW2 : GraphState 2 := ⟨some "+", none, some KW2, none⟩

/-! Theorems settling the claims. -/

/-- Claim C1: for every raw kernel matrix K returned by the build_kernel
hook and every gamma in the closed unit interval, when kernel_symm is
gamma the cached kernel equals gamma times the elementwise minimum of K
and its transpose plus one minus gamma times the elementwise maximum of K
and its transpose. -/
theorem gamma_symmetrization (n : Nat) (g : GraphState n) (K0 : KMat n) (γ : ℚ)
    (hs : g.kernel_symm = some "gamma") (hg : g.gamma = some γ)
    (_h0 : 0 ≤ γ) (_h1 : γ ≤ 1) (hc : g._kernel = none) :
    ∃ g2 ws, K_access g K0 = .ok
        (⟨K0.sparse, fun i j =>
          γ * min (K0.entry i j) (K0.entry j i) +
          (1 - γ) * max (K0.entry i j) (K0.entry j i)⟩, g2, ws) ∧
      g2._kernel = some
        ⟨K0.sparse, fun i j =>
          γ * min (K0.entry i j) (K0.entry j i) +
          (1 - γ) * max (K0.entry i j) (K0.entry j i)⟩ := by
  obtain ⟨ks, gg, kc, dc⟩ := g
  simp only [GraphState.kernel_symm] at hs
  simp only [GraphState.gamma] at hg
  simp only [GraphState._kernel] at hc
  subst hs; subst hg; subst hc
  exact ⟨_, _, rfl, rfl⟩

/-- Witness for C1 at a concrete asymmetric dense kernel and gamma one
half. -/
theorem gamma_symmetrization_witness :
    (0 : ℚ) ≤ 1 / 2 ∧ (1 : ℚ) / 2 ≤ 1 ∧
    (∃ g2 ws, K_access g_gammaW K_asym = .ok
        (⟨K_asym.sparse, fun i j =>
          ((1 : ℚ) / 2) * min (K_asym.entry i j) (K_asym.entry j i) +
          (1 - (1 : ℚ) / 2) * max (K_asym.entry i j) (K_asym.entry j i)⟩, g2, ws) ∧
      g2._kernel = some
        ⟨K_asym.sparse, fun i j =>
          ((1 : ℚ) / 2) * min (K_asym.entry i j) (K_asym.entry j i) +
          (1 - (1 : ℚ) / 2) * max (K_asym.entry i j) (K_asym.entry j i)⟩) :=
  ⟨by norm_num, by norm_num,
    gamma_symmetrization 2 g_gammaW K_asym ((1 : ℚ) / 2) rfl rfl
      (by norm_num) (by norm_num) rfl⟩

/-- Claim C2: for every cached kernel K (non-negative, per the kernel
data-model invariant), each row of the diffusion operator P obtained on
first access equals that row of K divided by its row sum when the row sum
is nonzero, so the row sums to 1; a row of K whose entries are all zero
is left as the zero row, summing to 0. -/
theorem P_first_access_rows (n : Nat) (g : GraphState n) (hook K : KMat n)
    (hK : g._kernel = some K) (hP : g._diff_op = none)
    (hpos : ∀ i j, 0 ≤ K.entry i j) :
    ∃ g2, P_access g hook = .ok (normalize_l1 K, g2) ∧
      ∀ i : Fin n,
        ((∑ j, K.entry i j) ≠ 0 →
          (∀ j, (normalize_l1 K).entry i j = K.entry i j / (∑ j2, K.entry i j2)) ∧
          (∑ j, (normalize_l1 K).entry i j) = 1) ∧
        ((∀ j, K.entry i j = 0) →
          (∀ j, (normalize_l1 K).entry i j = 0) ∧
          (∑ j, (normalize_l1 K).entry i j) = 0) := by
  have habs : ∀ i, (∑ j, |K.entry i j|) = ∑ j, K.entry i j := fun i =>
    Finset.sum_congr rfl fun j _ => abs_of_nonneg (hpos i j)
  refine ⟨{ g with _diff_op := some (normalize_l1 K) }, ?_, ?_⟩
  · simp [P_access, K_access, hP, hK]
  · intro i
    constructor
    · intro hs
      have hne : (∑ j, |K.entry i j|) ≠ 0 := by rw [habs i]; exact hs
      constructor
      · intro j
        simp only [normalize_l1, habs i, if_neg hs]
      · have hrw : (∑ j, (normalize_l1 K).entry i j) =
            ∑ j, K.entry i j / (∑ j2, |K.entry i j2|) :=
          Finset.sum_congr rfl fun j _ => by simp only [normalize_l1, if_neg hne]
        rw [hrw, ← Finset.sum_div, habs i, div_self hs]
    · intro hz
      have h0 : (∑ j, |K.entry i j|) = 0 := by simp [hz]
      have hentry : ∀ j, (normalize_l1 K).entry i j = 0 := fun j => by
        simp only [normalize_l1, h0, if_pos rfl]; exact hz j
      exact ⟨hentry, by simp [hentry]⟩

/-- Witness for C2 at a concrete cached kernel with one nonzero row and
one all-zero row. -/
theorem P_first_access_rows_witness :
    gW2._kernel = some KW2 ∧ gW2._diff_op = none ∧
    (∀ i j : Fin 2, 0 ≤ KW2.entry i j) ∧
    (∃ g2, P_access gW2 KW2 = .ok (normalize_l1 KW2, g2) ∧
      ∀ i : Fin 2,
        ((∑ j, KW2.entry i j) ≠ 0 →
          (∀ j, (normalize_l1 KW2).entry i j = KW2.entry i j / (∑ j2, KW2.entry i j2)) ∧
          (∑ j, (normalize_l1 KW2).entry i j) = 1) ∧
        ((∀ j, KW2.entry i j = 0) →
          (∀ j, (normalize_l1 KW2).entry i j = 0) ∧
          (∑ j, (normalize_l1 KW2).entry i j) = 0)) :=
  ⟨rfl, rfl, by decide, P_first_access_rows 2 gW2 KW2 KW2 rfl rfl (by decide)⟩

/-- Claim C3: the source is expected to fail with a shape-mismatch error
whose message reports both shapes on every dimension mismatch, also with
no reduction active. In the code, the bare raise ValueError statements of
the no-reduction branch run inside the except AttributeError handler of
the same try statement whose except ValueError clause builds that
message, so they are not caught: transform raises a ValueError with an
empty message both for a one-axis input and for a two-axis input of the
wrong width. This theorem evaluates the code at those failing inputs. -/
theorem transform_bare_error :
    Data.transform ⟨Arr.two 2 3 (fun _ _ => 1), none, none, Arr.two 2 3 (fun _ _ => 1)⟩
        (Arr.one 3 (fun _ => 1)) = .error (.valueError .empty) ∧
    Data.transform ⟨Arr.two 2 3 (fun _ _ => 1), none, none, Arr.two 2 3 (fun _ _ => 1)⟩
        (Arr.two 2 2 (fun _ _ => 1)) = .error (.valueError .empty) :=
  ⟨rfl, rfl⟩

/-- Claim C4: the multiplicative policy is expected to return the
elementwise product of K with its transpose, dense or sparse. The code
calls the multiply method of the kernel, which dense numpy arrays do not
have, so a dense kernel raises AttributeError; only the sparse case
returns the elementwise product. This theorem evaluates the code on a
dense kernel (the failing input) and on a sparse kernel. -/
theorem multiplicative_dense_attribute_error :
    K_access (⟨some "*", none, none, none⟩ : GraphState 2)
        ⟨false, fun _ _ => 1⟩ = .error .attributeError ∧
    symmetrize_kernel (⟨some "*", none, none, none⟩ : GraphState 2) ⟨true, fun i j => K_asym.entry i j⟩ =
      .ok ⟨true, fun i j => K_asym.entry i j * K_asym.entry j i⟩ :=
  ⟨rfl, rfl⟩

/-- Graph state with the null symmetrization policy and empty caches. -/
def g_none : GraphState 2 := ⟨none, none, none, none⟩

/-- Symmetric dense kernel whose diagonal entries are all zero. -/
def K_zdiag : KMat 2 := ⟨false, fun i j => if i = j then 0 else 1⟩

/-- Claim C5: a warning is expected exactly when some diagonal entry of
the symmetrized kernel is zero. The code compares the uncalled diagonal
method with 0, a condition that is identically false, so no warning is
ever emitted: at a kernel with an all-zero diagonal the first access
returns with an empty warning list although the spec-side check holds. -/
theorem zero_diagonal_warning_never_emitted :
    K_access g_none K_zdiag =
      .ok (K_zdiag, ⟨none, none, some K_zdiag, none⟩, []) ∧
    spec_zero_diagonal K_zdiag = true := by
  constructor
  · show K_access g_none K_zdiag = _
    have h1 : asym_above_tol K_zdiag = false := by
      simp only [asym_above_tol, decide_eq_false_iff_not, not_exists]
      intro i j
      fin_cases i <;> fin_cases j <;> simp [K_zdiag]
    have h2 : any_diagonal_method_eq_zero K_zdiag = false := rfl
    simp [K_access, _build_kernel, symmetrize_kernel, g_none, h1, h2]
  · decide

/-- Claim C6: interpolate with Y equals interpolate with the transitions
computed by extend_to_data on Y: the two entry points perform the same
computation on every valid new-point matrix. -/
theorem interpolate_two_entry_points (D : Data) (hook : Arr → Arr)
    (tr Y t : Arr) (h : extend_to_data D hook Y = .ok t) :
    interpolate D hook tr none (some Y) = interpolate D hook tr (some t) none := by
  simp [interpolate, h]

/-- Data state with no reduction built on 2 by 2 data of ones. -/
def D_W6 : Data :=
  ⟨Arr.two 2 2 (fun _ _ => 1), none, none, Arr.two 2 2 (fun _ _ => 1)⟩

/-- Concrete build_kernel_to_data hook returning a 2 by 2 kernel of ones. -/
def hook_W6 : Arr → Arr := fun _ => Arr.two 2 2 (fun _ _ => 1)

/-- Concrete new-point matrix for the C6 witness. -/
def Y_W6 : Arr := Arr.two 2 2 (fun _ _ => 1)

/-- The transition matrix extend_to_data produces on Y_W6. -/
def T_W6 : Arr :=
  match extend_to_data D_W6 hook_W6 Y_W6 with
  | .ok t => t
  | .error _ => Arr.one 0 (fun _ => 0)

/-- Witness for C6 at a concrete graph, hook and new-point matrix. -/
theorem interpolate_two_entry_points_witness :
    extend_to_data D_W6 hook_W6 Y_W6 = .ok T_W6 ∧
    interpolate D_W6 hook_W6 (Arr.two 2 1 (fun _ _ => 2)) none (some Y_W6) =
      interpolate D_W6 hook_W6 (Arr.two 2 1 (fun _ _ => 2)) (some T_W6) none :=
  ⟨rfl, interpolate_two_entry_points D_W6 hook_W6 (Arr.two 2 1 (fun _ _ => 2)) Y_W6 T_W6 rfl⟩

/-- Claim C7: with no reduction active, inverse_transform after transform
returns a matching two-axis input unchanged; with reduction active,
inverse_transform restricted to a column list returns exactly those
columns of the unrestricted inverse_transform. -/
theorem transform_inverse_roundtrip :
    (∀ (D : Data) (r c : Nat) (v : Nat → Nat → ℚ),
      D.data_pca = none → D.data.dim1 = c → D.data_nu.dim1 = c →
      (Data.transform D (.two r c v)).bind
          (fun Z => Data.inverse_transform D Z none) = .ok (.two r c v)) ∧
    (∀ (D : Data) (pca : PCAFit) (r c : Nat) (v : Nat → Nat → ℚ) (cols : List Nat),
      D.data_pca = some pca → c = pca.k →
      Data.inverse_transform D (.two r c v) (some cols) =
        (Data.inverse_transform D (.two r c v) none).map (restrict_columns cols)) := by
  constructor
  · intro D r c v hpca hd hdnu
    simp [Data.transform, Data.inverse_transform, hpca, hd, hdnu, Except.bind]
  · intro D pca r c v cols hpca hk
    subst hk
    simp [Data.inverse_transform, pca_inverse_transform, hpca, restrict_columns,
      Except.map]

/-- Fitted operator used by the C7 witness: 2 components over 3 ambient
features with a stored mean. -/
def pcaW : PCAFit := ⟨2, 3, fun i j => (i + j : ℚ), some (fun j => (j : ℚ))⟩

/-- Data state with reduction active used by the C7 witness. -/
def D_pcaW : Data :=
  ⟨Arr.two 2 3 (fun _ _ => 1), some 2, some pcaW, Arr.two 2 2 (fun _ _ => 1)⟩

/-- Data state with no reduction built on 2 by 3 data. -/
def D_noRed : Data :=
  ⟨Arr.two 2 3 (fun _ _ => 1), none, none, Arr.two 2 3 (fun _ _ => 1)⟩

/-- Witness for C7: the round trip at a concrete unreduced state and the
column restriction at a concrete reduced state. -/
theorem transform_inverse_roundtrip_witness :
    (Data.transform D_noRed (.two 1 3 (fun _ _ => 2))).bind
        (fun Z => Data.inverse_transform D_noRed Z none) =
      .ok (.two 1 3 (fun _ _ => 2)) ∧
    Data.inverse_transform D_pcaW (.two 2 2 (fun _ _ => 1)) (some [2, 0]) =
      (Data.inverse_transform D_pcaW (.two 2 2 (fun _ _ => 1)) none).map
        (restrict_columns [2, 0]) :=
  ⟨transform_inverse_roundtrip.1 D_noRed 1 3 (fun _ _ => 2) rfl rfl rfl,
   transform_inverse_roundtrip.2 D_pcaW pcaW 2 2 (fun _ _ => 1) [2, 0] rfl rfl⟩

/-- Instance parameters used by the C8 counterexample. -/
def s_C8 : DGParams := ⟨none, some 0, some "+", none⟩

/-- Params dict passing a new random_state together with a changed gamma. -/
def p_C8 : ParamUpdate := ⟨none, some (some 42), none, some (some ((1 : ℚ) / 2))⟩

/-- Counterexample to claim C8 as stated: a set_params call passing a
changed gamma together with a new random_state raises the explicit error,
yet the instance does not come out unmodified: random_state was already
updated by Data.set_params before BaseGraph.set_params rejected gamma. -/
theorem set_params_not_atomic :
    (DataGraph.set_params s_C8 p_C8).1 =
      .error (.valueError (.cannotUpdate .gamma)) ∧
    (DataGraph.set_params s_C8 p_C8).2.random_state = some 42 ∧
    s_C8.random_state = some 0 ∧
    (DataGraph.set_params s_C8 p_C8).2 ≠ s_C8 :=
  ⟨rfl, rfl, rfl, by decide⟩

/-- Claim C8 amended: calling set_params with a changed n_pca, gamma or
kernel_symm fails with an explicit error; n_pca, gamma and kernel_symm
themselves are never modified, and a rejected n_pca leaves the instance
fully unmodified; but a random_state passed in the same call as a
rejected gamma or kernel_symm has already been applied when the error is
raised. -/
theorem set_params_amended (s : DGParams) (p : ParamUpdate) :
    ((param_changed p.n_pca s.n_pca = true ∨ param_changed p.gamma s.gamma = true ∨
        param_changed p.kernel_symm s.kernel_symm = true) →
      (DataGraph.set_params s p).1 ≠ .ok ()) ∧
    ((DataGraph.set_params s p).2.n_pca = s.n_pca ∧
      (DataGraph.set_params s p).2.gamma = s.gamma ∧
      (DataGraph.set_params s p).2.kernel_symm = s.kernel_symm) ∧
    (param_changed p.n_pca s.n_pca = true → (DataGraph.set_params s p).2 = s) := by
  have ha : (match p.random_state with
      | some v => ({ s with random_state := v } : DGParams)
      | none => s).n_pca = s.n_pca := by cases p.random_state <;> rfl
  have hb : (match p.random_state with
      | some v => ({ s with random_state := v } : DGParams)
      | none => s).gamma = s.gamma := by cases p.random_state <;> rfl
  have hc : (match p.random_state with
      | some v => ({ s with random_state := v } : DGParams)
      | none => s).kernel_symm = s.kernel_symm := by cases p.random_state <;> rfl
  by_cases hn : param_changed p.n_pca s.n_pca = true
  · refine ⟨fun _ => ?_, ?_, fun _ => ?_⟩ <;> simp [DataGraph.set_params, hn]
  · rw [Bool.not_eq_true] at hn
    by_cases hg : param_changed p.gamma s.gamma = true
    · refine ⟨fun _ => ?_, ⟨?_, ?_, ?_⟩, fun h => ?_⟩
      · simp [DataGraph.set_params, hn, hb, hg]
      · simp [DataGraph.set_params, hn, hb, hg, ha]
      · simp [DataGraph.set_params, hn, hb, hg]
      · simp [DataGraph.set_params, hn, hb, hg, hc]
      · rw [h] at hn; exact Bool.noConfusion hn
    · rw [Bool.not_eq_true] at hg
      by_cases hk : param_changed p.kernel_symm s.kernel_symm = true
      · refine ⟨fun _ => ?_, ⟨?_, ?_, ?_⟩, fun h => ?_⟩
        · simp [DataGraph.set_params, hn, hb, hg, hc, hk]
        · simp [DataGraph.set_params, hn, hb, hg, hc, hk, ha]
        · simp [DataGraph.set_params, hn, hb, hg, hc, hk]
        · simp [DataGraph.set_params, hn, hb, hg, hc, hk]
        · rw [h] at hn; exact Bool.noConfusion hn
      · rw [Bool.not_eq_true] at hk
        refine ⟨fun hor => ?_, ⟨?_, ?_, ?_⟩, fun h => ?_⟩
        · rcases hor with h | h | h
          · rw [h] at hn; exact Bool.noConfusion hn
          · rw [h] at hg; exact Bool.noConfusion hg
          · rw [h] at hk; exact Bool.noConfusion hk
        · simp [DataGraph.set_params, hn, hb, hg, hc, hk, ha]
        · simp [DataGraph.set_params, hn, hb, hg, hc, hk]
        · simp [DataGraph.set_params, hn, hb, hg, hc, hk]
        · rw [h] at hn; exact Bool.noConfusion hn

/-- Witness for C8 amended: a changed n_pca is rejected and the instance
is fully unmodified. -/
theorem set_params_amended_witness :
    (DataGraph.set_params ⟨some 5, none, some "+", none⟩
        ⟨some (some 6), none, none, none⟩).1 ≠ .ok () ∧
    (DataGraph.set_params ⟨some 5, none, some "+", none⟩
        ⟨some (some 6), none, none, none⟩).2 = ⟨some 5, none, some "+", none⟩ :=
  ⟨(set_params_amended ⟨some 5, none, some "+", none⟩
      ⟨some (some 6), none, none, none⟩).1 (Or.inl (by decide)),
   (set_params_amended ⟨some 5, none, some "+", none⟩
      ⟨some (some 6), none, none, none⟩).2.2 (by decide)⟩

/-- Claim C9: for every two-axis dataset and every n_pca at least the
ambient feature count, construction does not raise: it emits the
non-fatal warning, sets n_pca to none, and stores the input unchanged as
the reduced representation. -/
theorem n_pca_fallback (r c : Nat) (v : Nat → Nat → ℚ) (p : Nat)
    (fit : Arr → Nat → PCAFit) (h : c ≤ p) :
    Data.init (.two r c v) (some p) fit =
      .ok ⟨⟨.two r c v, none, none, .two r c v⟩, [.pcaNotPossible p c]⟩ := by
  simp [Data.init, h]

/-- Trivial fitted operator for the C9 witness. -/
def pca_dummy : PCAFit := ⟨0, 0, fun _ _ => 0, none⟩

/-- Witness for C9 at concrete 4 by 2 data and n_pca 3. -/
theorem n_pca_fallback_witness :
    2 ≤ 3 ∧
    Data.init (.two 4 2 (fun _ _ => 1)) (some 3) (fun _ _ => pca_dummy) =
      .ok ⟨⟨.two 4 2 (fun _ _ => 1), none, none, .two 4 2 (fun _ _ => 1)⟩,
        [.pcaNotPossible 3 2]⟩ :=
  ⟨by decide, n_pca_fallback 4 2 (fun _ _ => 1) 3 (fun _ _ => pca_dummy) (by decide)⟩

/-- Claim C10: constructing a graph with kernel_symm equal to the string
none fails with the configuration value error, whose message nevertheless
lists none among the choices; only the null value selects the
no-symmetrization policy, under which the kernel is left unchanged. -/
theorem kernel_symm_none_string_rejected :
    (∀ (n : Nat) (gamma : Option ℚ) (eager : Bool) (hook : KMat n),
      BaseGraph.init (some "none") gamma eager hook =
        .error (.valueError (.kernelSymmNotRecognized (some "none")
          ["+", "*", "gamma", "none"]))) ∧
    "none" ∈ ["+", "*", "gamma", "none"] ∧
    (∀ (n : Nat) (g : GraphState n) (K : KMat n),
      g.kernel_symm = none → symmetrize_kernel g K = .ok K) := by
  refine ⟨?_, by decide, ?_⟩
  · intro n gamma eager hook
    have hmem : (some "none" : Option String) ∉
        ([some "+", some "*", some "gamma", none] : List (Option String)) := by decide
    simp [BaseGraph.init, _check_symmetrization, hmem]
  · intro n g K h
    simp [symmetrize_kernel, h]

/-- Identity 1 by 1 kernel used by the C10 witness. -/
def K_id1 : KMat 1 := ⟨false, fun _ _ => 1⟩

/-- Graph state with null kernel_symm on one sample. -/
def g_none1 : GraphState 1 := ⟨none, none, none, none⟩

/-- Witness for C10: the rejection at concrete arguments and the
unchanged kernel under the null policy. -/
theorem kernel_symm_none_string_rejected_witness :
    BaseGraph.init (some "none") (none : Option ℚ) false K_id1 =
      .error (.valueError (.kernelSymmNotRecognized (some "none")
        ["+", "*", "gamma", "none"])) ∧
    symmetrize_kernel g_none1 K_id1 = .ok K_id1 :=
  ⟨kernel_symm_none_string_rejected.1 1 none false K_id1,
   kernel_symm_none_string_rejected.2.2 1 g_none1 K_id1 rfl⟩

end Graphtools
